import Mathlib

/-!
Verification of the `langmem` short-term summarization engine
(`src/langmem/short_term/summarization.py`).

The embedding models messages, summary state and the `summarize_messages`
function. Token counts are integers (`Int`), since the effective budget can go
negative after the system-message carve-out. The summarizer model is embedded
as a deterministic function from prompt messages to the response text, and
`summarize_messages` additionally returns the number of model invocations
performed during the call (always 0 or 1), which is the observable the spec's
idempotence and invocation-count claims are about.
-/

namespace Langmem

/-- Message roles, mirroring `SystemMessage` / `HumanMessage` / `AIMessage` /
`ToolMessage` class membership in the source. -/
inductive Role
  | system
  | human
  | ai
  | tool
  deriving DecidableEq

/-- A chat message: optional `id`, role, text content, and the list of pending
tool calls (relevant for `AIMessage.tool_calls` truthiness checks). -/
structure Message where
  id : Option String
  role : Role
  content : String
  tool_calls : List String
  deriving DecidableEq

/-- `SummaryInfo` dataclass from the source. -/
structure SummaryInfo where
  summary : String
  summarized_message_ids : List (Option String)
  total_summarized_messages : Nat
  deriving DecidableEq

/-- `SummarizationResult` dataclass from the source. -/
structure SummarizationResult where
  messages : List Message
  summary_info : Option SummaryInfo
  deriving DecidableEq

/-- The two `ValueError`s `summarize_messages` can raise. -/
inductive SummarizeError
  | invalidConfiguration
  | budgetExceeded
  deriving DecidableEq

/-- `TokenCounter = Callable[[list[BaseMessage]], int]`. -/
abbrev TokenCounter := List Message → Int

/-- System-message carve-out (source lines 106-114): if the first message has
role `system`, remove it from the working list and subtract its token cost
from `max_tokens`. Returns (reserved system message, working list, adjusted
budget). -/
def carveOut (token_counter : TokenCounter) (max_tokens : Int) :
    List Message → Option Message × List Message × Int
  | [] => (none, [], max_tokens)
  | m :: rest =>
    if m.role = Role.system then (some m, rest, max_tokens - token_counter [m])
    else (none, m :: rest, max_tokens)

/-- Re-attach the reserved system message in front of a message list
(`[existing_system_message] + messages` in the source). -/
def withSystem : Option Message → List Message → List Message
  | none, messages => messages
  | some s, messages => s :: messages

/-- `total_summarized_messages` read off the optional prior state
(source lines 127-129). -/
def totalSummarized : Option SummaryInfo → Nat
  | none => 0
  | some si => si.total_summarized_messages

/-- The pop condition of the safety-trim loop (source lines 165-171): the last
message is an AI message with pending tool calls, or a human message. -/
def shouldPop (m : Message) : Bool :=
  (m.role == Role.ai && !m.tool_calls.isEmpty) || m.role == Role.human

/-- The safety-trim loop (source lines 165-172): pop from the end while the
last element satisfies `shouldPop`. -/
def trimEnd (l : List Message) : List Message :=
  (l.reverse.dropWhile shouldPop).reverse

/-- The token-counting scan loop (source lines 139-151): walk the remaining
messages carrying the absolute index `i`, the running total `n_tokens` and the
tentative cutoff `idx`; update `idx` while the running total is within
`max_tokens`; fail with `budgetExceeded` as soon as the running total reaches
`max_total_tokens`. -/
def scanTokens (token_counter : TokenCounter) (max_tokens max_total_tokens : Int) :
    List Message → Nat → Int → Nat → Except SummarizeError (Int × Nat)
  | [], _, n_tokens, idx => .ok (n_tokens, idx)
  | m :: rest, i, n_tokens, idx =>
    let n := n_tokens + token_counter [m]
    let idx2 := if n ≤ max_tokens then i else idx
    if max_total_tokens ≤ n then .error .budgetExceeded
    else scanTokens token_counter max_tokens max_total_tokens rest (i + 1) n idx2

/-- The scan as `summarize_messages` invokes it (source lines 131-151): from
index `total` of the working list, with `n_tokens = 0`,
`idx = max(0, total - 1)` (Nat subtraction), and ceiling
`max_tokens * 2 - max_summary_tokens`. -/
def scanResult (token_counter : TokenCounter) (max_tokens max_summary_tokens : Int)
    (working : List Message) (total : Nat) : Except SummarizeError (Int × Nat) :=
  scanTokens token_counter max_tokens (max_tokens * 2 - max_summary_tokens)
    (working.drop total) total 0 (total - 1)

/-- The candidate slice before trimming (source lines 153-158):
`messages[total_summarized_messages : idx + 1]` when the running total
exceeded `max_tokens`, else nothing (`None` behaves as the empty list in the
subsequent trim and emptiness tests). -/
def rawCandidate (max_tokens : Int) (working : List Message) (total : Nat)
    (n_tokens : Int) (idx : Nat) : List Message :=
  if n_tokens ≤ max_tokens then [] else (working.drop total).take (idx + 1 - total)

/-- `summarize_messages` (source lines 60-225). The extra `Nat` in the result
counts summarizer-model invocations in the call (0 or 1). -/
def summarize_messages (messages : List Message)
    (existing_summary_info : Option SummaryInfo)
    (model : List Message → String) (max_tokens max_summary_tokens : Int)
    (token_counter : TokenCounter)
    (initial_summary_prompt : List Message → List Message)
    (existing_summary_prompt : List Message → String → List Message)
    (final_prompt : List Message → String → List Message → List Message) :
    Except SummarizeError SummarizationResult × Nat :=
  if max_summary_tokens ≥ max_tokens then (.error .invalidConfiguration, 0)
  else
    let c := carveOut token_counter max_tokens messages
    let existing_system_message := c.1
    let working := c.2.1
    let max_tokens2 := c.2.2
    if working = [] then
      (.ok ⟨withSystem existing_system_message working, existing_summary_info⟩, 0)
    else
      let total := totalSummarized existing_summary_info
      match scanResult token_counter max_tokens2 max_summary_tokens working total with
      | .error e => (.error e, 0)
      | .ok (n_tokens, idx) =>
        let messages_to_summarize := trimEnd (rawCandidate max_tokens2 working total n_tokens idx)
        if messages_to_summarize = [] then
          match existing_summary_info with
          | some si =>
            (.ok ⟨final_prompt (withSystem existing_system_message []) si.summary
                (working.drop total), some si⟩, 0)
          | none => (.ok ⟨withSystem existing_system_message working, none⟩, 0)
        else
          let summary_messages :=
            match existing_summary_info with
            | some si => existing_summary_prompt messages_to_summarize si.summary
            | none => initial_summary_prompt messages_to_summarize
          let response := model summary_messages
          let total2 := total + messages_to_summarize.length
          let si2 : SummaryInfo :=
            ⟨response, messages_to_summarize.map (fun m => m.id), total2⟩
          (.ok ⟨final_prompt (withSystem existing_system_message []) si2.summary
              (working.drop total2), some si2⟩, 1)

/-- A user message synthesized by a prompt template (no id, no tool calls). -/
def mkUserMessage (content : String) : Message :=
  ⟨none, Role.human, content, []⟩

/-- A system message synthesized by a prompt template (no id, no tool calls). -/
def mkSystemMessage (content : String) : Message :=
  ⟨none, Role.system, content, []⟩

/-- Default initial-summary prompt (source lines 13-18), rendered. -/
def DEFAULT_INITIAL_SUMMARY_PROMPT (messages : List Message) : List Message :=
  messages ++ [mkUserMessage "Create a summary of the conversation above:"]

/-- Default existing-summary prompt (source lines 21-30), rendered. -/
def DEFAULT_EXISTING_SUMMARY_PROMPT (messages : List Message)
    (existing_summary : String) : List Message :=
  messages ++ [mkUserMessage ("This is summary of the conversation to date: " ++
    existing_summary ++ "\n\nExtend the summary by taking into account the new messages above:")]

/-- Default final prompt (source lines 32-39), rendered. -/
def DEFAULT_FINAL_SUMMARY_PROMPT (system_message : List Message) (summary : String)
    (messages : List Message) : List Message :=
  system_message ++ mkSystemMessage ("Summary of conversation earlier: " ++ summary) :: messages

/-- The candidate slice a `summarize_messages` call works with, computed from
the call's arguments (empty when the scan fails or no summarization triggers). -/
def plannedCandidate (messages : List Message)
    (existing_summary_info : Option SummaryInfo)
    (max_tokens max_summary_tokens : Int) (token_counter : TokenCounter) :
    List Message :=
  let c := carveOut token_counter max_tokens messages
  let total := totalSummarized existing_summary_info
  match scanResult token_counter c.2.2 max_summary_tokens c.2.1 total with
  | .error _ => []
  | .ok (n_tokens, idx) => rawCandidate c.2.2 c.2.1 total n_tokens idx

/-- The trimmed slice a `summarize_messages` call summarizes (empty when no
summarization happens). -/
def plannedSlice (messages : List Message)
    (existing_summary_info : Option SummaryInfo)
    (max_tokens max_summary_tokens : Int) (token_counter : TokenCounter) :
    List Message :=
  trimEnd (plannedCandidate messages existing_summary_info max_tokens
    max_summary_tokens token_counter)

/-- Total token cost of the first `k` messages of `l`, counted one message at
a time, exactly as the scan loop accumulates them. -/
def takeCost (token_counter : TokenCounter) (l : List Message) (k : Nat) : Int :=
  ((l.take k).map (fun m => token_counter [m])).sum

instance {ε α : Type} [DecidableEq ε] [DecidableEq α] : DecidableEq (Except ε α)
  | .ok a, .ok b =>
    if h : a = b then isTrue (by rw [h]) else isFalse (by simp [h])
  | .error a, .error b =>
    if h : a = b then isTrue (by rw [h]) else isFalse (by simp [h])
  | .ok _, .error _ => isFalse (by simp)
  | .error _, .ok _ => isFalse (by simp)

/-! ### Helper lemmas -/

theorem take_left_of_eq {α : Type} {l A B : List α} (h : l = A ++ B) :
    l.take A.length = A := by
  rw [h]; exact List.take_left A B

theorem drop_left_of_eq {α : Type} {l A B : List α} (h : l = A ++ B) :
    l.drop A.length = B := by
  rw [h]; exact List.drop_left A B

theorem reverse_decomp (l : List Message) :
    l = (l.reverse.dropWhile shouldPop).reverse ++
      (l.reverse.takeWhile shouldPop).reverse := by
  rw [← List.reverse_append, List.takeWhile_append_dropWhile, List.reverse_reverse]

theorem trimEnd_take (l : List Message) : l.take (trimEnd l).length = trimEnd l :=
  take_left_of_eq (reverse_decomp l)

theorem trimEnd_drop (l : List Message) :
    l.drop (trimEnd l).length = (l.reverse.takeWhile shouldPop).reverse :=
  drop_left_of_eq (reverse_decomp l)

theorem shouldPop_of_mem_drop {l : List Message} {m : Message}
    (h : m ∈ l.drop (trimEnd l).length) : shouldPop m = true := by
  rw [trimEnd_drop] at h
  exact List.mem_takeWhile_imp (List.mem_reverse.mp h)

theorem head?_dropWhile_false {p : Message → Bool} :
    ∀ (L : List Message) (m : Message), (L.dropWhile p).head? = some m → p m = false := by
  intro L
  induction L with
  | nil => intro m h; simp [List.dropWhile] at h
  | cons a t ih =>
    intro m h
    by_cases hp : p a = true
    · rw [List.dropWhile_cons_of_pos hp] at h
      exact ih m h
    · rw [List.dropWhile_cons_of_neg hp] at h
      simp only [List.head?_cons, Option.some.injEq] at h
      simp only [Bool.not_eq_true] at hp
      rw [← h]
      exact hp

theorem trimEnd_getLast {l : List Message} {m : Message}
    (h : (trimEnd l).getLast? = some m) : shouldPop m = false := by
  simp only [trimEnd] at h
  rw [List.getLast?_reverse] at h
  exact head?_dropWhile_false _ m h

theorem takeCost_cons_succ (token_counter : TokenCounter) (a : Message)
    (t : List Message) (j : Nat) :
    takeCost token_counter (a :: t) (j + 1) =
      token_counter [a] + takeCost token_counter t j := by
  simp [takeCost]

theorem scanTokens_ok_sum (token_counter : TokenCounter)
    (max_tokens max_total_tokens : Int) :
    ∀ (l : List Message) (i : Nat) (n : Int) (idx : Nat) (n' : Int) (idx' : Nat),
      scanTokens token_counter max_tokens max_total_tokens l i n idx = .ok (n', idx') →
      n' = n + (l.map (fun m => token_counter [m])).sum := by
  intro l
  induction l with
  | nil =>
    intro i n idx n' idx' h
    simp only [scanTokens, Except.ok.injEq, Prod.mk.injEq] at h
    simp [← h.1]
  | cons a t ih =>
    intro i n idx n' idx' h
    simp only [scanTokens] at h
    split at h
    · exact absurd h (by simp)
    · have h2 := ih (i + 1) (n + token_counter [a]) _ _ _ h
      simp only [List.map_cons, List.sum_cons, h2]
      ring

theorem scanTokens_error_of_reach (token_counter : TokenCounter)
    (max_tokens max_total_tokens : Int) :
    ∀ (l : List Message) (i : Nat) (n : Int) (idx : Nat) (k : Nat),
      1 ≤ k → k ≤ l.length → max_total_tokens ≤ n + takeCost token_counter l k →
      scanTokens token_counter max_tokens max_total_tokens l i n idx =
        .error .budgetExceeded := by
  intro l
  induction l with
  | nil =>
    intro i n idx k h1 h2 h3
    simp only [List.length_nil] at h2
    omega
  | cons a t ih =>
    intro i n idx k h1 h2 h3
    simp only [scanTokens]
    split
    · rfl
    · rename_i hlt
      obtain ⟨j, rfl⟩ : ∃ j, k = j + 1 := ⟨k - 1, by omega⟩
      rw [takeCost_cons_succ] at h3
      rcases Nat.eq_zero_or_pos j with hj | hj
      · subst hj
        simp only [takeCost, List.take_zero, List.map_nil, List.sum_nil, add_zero] at h3
        exact absurd (by linarith : max_total_tokens ≤ n + token_counter [a]) hlt
      · exact ih (i + 1) (n + token_counter [a]) _ j hj
          (by simpa using h2) (by linarith)

/-! ### Concrete fixtures for witnesses and counterexamples -/

/-- Token counter used in concrete scenarios: total content length. -/
def lenCounter : TokenCounter := fun l => ((l.map (fun m => (m.content.length : Int))).sum)

/-- Summarizer model used in concrete scenarios: constant response `"S"`. -/
def constModel : List Message → String := fun _ => "S"

/-- A system message of token cost 9 under `lenCounter`. -/
def sysHeavy : Message := ⟨none, Role.system, "sssssssss", []⟩

/-- A human message of token cost 1 under `lenCounter`. -/
def tinyHuman : Message := ⟨some "1", Role.human, "a", []⟩

/-- A message of token cost 25 under `lenCounter`. -/
def hugeMsg : Message := ⟨some "big", Role.human, "aaaaaaaaaaaaaaaaaaaaaaaaa", []⟩

/-! ### Claim theorems -/

/-- C6: whenever `maxSummaryTokens ≥ maxTokens`, `summarize_messages` fails
with `invalidConfiguration` and performs zero model invocations, uniformly in
the message list, prior state, model, token counter and templates — so no
message is inspected, no token is counted and the model is never invoked. -/
theorem C6_invalid_configuration (messages : List Message)
    (existing_summary_info : Option SummaryInfo) (model : List Message → String)
    (max_tokens max_summary_tokens : Int) (token_counter : TokenCounter)
    (ip : List Message → List Message) (ep : List Message → String → List Message)
    (fp : List Message → String → List Message → List Message)
    (h : max_summary_tokens ≥ max_tokens) :
    summarize_messages messages existing_summary_info model max_tokens
      max_summary_tokens token_counter ip ep fp =
      (.error .invalidConfiguration, 0) := by
  unfold summarize_messages
  rw [if_pos h]

/-- Witness for C6 at a concrete input. -/
theorem C6_invalid_configuration_witness :
    (5 : Int) ≥ 3 ∧
    summarize_messages [tinyHuman] none constModel 3 5 lenCounter
      DEFAULT_INITIAL_SUMMARY_PROMPT DEFAULT_EXISTING_SUMMARY_PROMPT
      DEFAULT_FINAL_SUMMARY_PROMPT = (.error .invalidConfiguration, 0) :=
  ⟨by decide,
    C6_invalid_configuration [tinyHuman] none constModel 3 5 lenCounter
      DEFAULT_INITIAL_SUMMARY_PROMPT DEFAULT_EXISTING_SUMMARY_PROMPT
      DEFAULT_FINAL_SUMMARY_PROMPT (by decide)⟩

/-- C9: a single `summarize_messages` call invokes the summarizer model either
zero times or exactly once — never twice or more. -/
theorem C9_at_most_one_invocation (messages : List Message)
    (existing_summary_info : Option SummaryInfo) (model : List Message → String)
    (max_tokens max_summary_tokens : Int) (token_counter : TokenCounter)
    (ip : List Message → List Message) (ep : List Message → String → List Message)
    (fp : List Message → String → List Message → List Message) :
    (summarize_messages messages existing_summary_info model max_tokens
      max_summary_tokens token_counter ip ep fp).2 = 0 ∨
    (summarize_messages messages existing_summary_info model max_tokens
      max_summary_tokens token_counter ip ep fp).2 = 1 := by
  simp only [summarize_messages]
  repeat' split
  all_goals simp

/-- C2: if the running token total over the unsummarized messages — scanned
from the resume index of the working list, with the budget already reduced by
the system carve-out — reaches the ceiling `2*maxTokens - maxSummaryTokens`
within the first `k` messages, `summarize_messages` fails with
`budgetExceeded` and the model is invoked zero times. The single-message case
is `k = 1`. -/
theorem C2_budget_exceeded_on_reach (messages : List Message)
    (existing_summary_info : Option SummaryInfo) (model : List Message → String)
    (max_tokens max_summary_tokens : Int) (token_counter : TokenCounter)
    (ip : List Message → List Message) (ep : List Message → String → List Message)
    (fp : List Message → String → List Message → List Message)
    (hcfg : ¬ max_summary_tokens ≥ max_tokens) (k : Nat) (hk1 : 1 ≤ k)
    (hk2 : k ≤ ((carveOut token_counter max_tokens messages).2.1.drop
      (totalSummarized existing_summary_info)).length)
    (hk3 : 2 * (carveOut token_counter max_tokens messages).2.2 - max_summary_tokens ≤
      takeCost token_counter ((carveOut token_counter max_tokens messages).2.1.drop
        (totalSummarized existing_summary_info)) k) :
    summarize_messages messages existing_summary_info model max_tokens
      max_summary_tokens token_counter ip ep fp = (.error .budgetExceeded, 0) := by
  have hscan : scanResult token_counter
      (carveOut token_counter max_tokens messages).2.2 max_summary_tokens
      (carveOut token_counter max_tokens messages).2.1
      (totalSummarized existing_summary_info) = .error .budgetExceeded := by
    apply scanTokens_error_of_reach _ _ _ _ _ _ _ k hk1 hk2
    linarith
  have hne : ¬ ((carveOut token_counter max_tokens messages).2.1 = []) := by
    intro h0
    rw [h0] at hk2
    simp only [List.drop_nil, List.length_nil] at hk2
    omega
  simp only [summarize_messages, if_neg hcfg, if_neg hne, hscan]

/-- Witness for C2: one message whose own cost (25) meets the ceiling
`2*10 - 1 = 19`. -/
theorem C2_budget_exceeded_on_reach_witness :
    ¬ ((1 : Int) ≥ 10) ∧ (1 : Nat) ≤ 1 ∧
    1 ≤ ((carveOut lenCounter 10 [hugeMsg]).2.1.drop (totalSummarized none)).length ∧
    2 * (carveOut lenCounter 10 [hugeMsg]).2.2 - 1 ≤
      takeCost lenCounter
        ((carveOut lenCounter 10 [hugeMsg]).2.1.drop (totalSummarized none)) 1 ∧
    summarize_messages [hugeMsg] none constModel 10 1 lenCounter
      DEFAULT_INITIAL_SUMMARY_PROMPT DEFAULT_EXISTING_SUMMARY_PROMPT
      DEFAULT_FINAL_SUMMARY_PROMPT = (.error .budgetExceeded, 0) :=
  ⟨by decide, by decide, by decide, by decide,
    C2_budget_exceeded_on_reach [hugeMsg] none constModel 10 1 lenCounter
      DEFAULT_INITIAL_SUMMARY_PROMPT DEFAULT_EXISTING_SUMMARY_PROMPT
      DEFAULT_FINAL_SUMMARY_PROMPT (by decide) 1 (by decide) (by decide) (by decide)⟩

/-- C10: the `invalidConfiguration` check compares `maxSummaryTokens` against
the caller-supplied `maxTokens` before the system carve-out. Here the leading
system message costs 9 ≥ maxTokens - maxSummaryTokens = 5, so the effective
budget 1 is ≤ maxSummaryTokens = 5, yet no `invalidConfiguration` is raised;
the ceiling `2*1 - 5 = -3` is computed from the reduced budget, so
`budgetExceeded` fires on the first scanned message even though its cost 1
fits the original budget 10. -/
theorem C10_config_check_before_carveout :
    ¬ ((5 : Int) ≥ 10) ∧
    10 - lenCounter [sysHeavy] ≤ (5 : Int) ∧
    lenCounter [tinyHuman] ≤ (10 : Int) ∧
    summarize_messages [sysHeavy, tinyHuman] none constModel 10 5 lenCounter
      DEFAULT_INITIAL_SUMMARY_PROMPT DEFAULT_EXISTING_SUMMARY_PROMPT
      DEFAULT_FINAL_SUMMARY_PROMPT = (.error .budgetExceeded, 0) := by
  refine ⟨by decide, by decide, by decide, by decide⟩

/-- Nine messages of cost 1 each under `lenCounter`, alternating human/ai,
mirroring the repository's first-summarization test. -/
def msgs9 : List Message :=
  [⟨some "1", Role.human, "m", []⟩, ⟨some "2", Role.ai, "r", []⟩,
   ⟨some "3", Role.human, "m", []⟩, ⟨some "4", Role.ai, "r", []⟩,
   ⟨some "5", Role.human, "m", []⟩, ⟨some "6", Role.ai, "r", []⟩,
   ⟨some "7", Role.human, "m", []⟩, ⟨some "8", Role.ai, "r", []⟩,
   ⟨some "9", Role.human, "m", []⟩]

/-- The summary state produced by summarizing the first six of `msgs9`. -/
def si6 : SummaryInfo :=
  ⟨"S", [some "1", some "2", some "3", some "4", some "5", some "6"], 6⟩

/-- C7: on every successful call with prior state `s`, the returned state is
present and its `total_summarized_messages` is at least `s`'s; it is exactly
`s` when the model was not invoked (no-compaction path) and strictly larger
when a new summary was generated. -/
theorem C7_total_monotonic (messages : List Message) (s : SummaryInfo)
    (model : List Message → String) (max_tokens max_summary_tokens : Int)
    (token_counter : TokenCounter)
    (ip : List Message → List Message) (ep : List Message → String → List Message)
    (fp : List Message → String → List Message → List Message)
    (r : SummarizationResult) (c : Nat)
    (h : summarize_messages messages (some s) model max_tokens max_summary_tokens
      token_counter ip ep fp = (.ok r, c)) :
    ∃ si, r.summary_info = some si ∧
      s.total_summarized_messages ≤ si.total_summarized_messages ∧
      (c = 0 → si = s) ∧
      (c = 1 → s.total_summarized_messages < si.total_summarized_messages) := by
  simp only [summarize_messages, totalSummarized] at h
  split at h
  · exact absurd h (by simp)
  · split at h
    · -- empty working list: prior state passed through, zero invocations
      injection h with hA hB
      injection hA with hR
      subst hR hB
      exact ⟨s, rfl, le_refl _, fun _ => rfl, fun hc => absurd hc (by decide)⟩
    · split at h
      · exact absurd h (by simp)
      · split at h
        · -- no new summary: prior state reattached, zero invocations
          injection h with hA hB
          injection hA with hR
          subst hR hB
          exact ⟨s, rfl, le_refl _, fun _ => rfl, fun hc => absurd hc (by decide)⟩
        · -- new summary generated: count grows by the nonempty slice length
          rename_i hne
          injection h with hA hB
          injection hA with hR
          subst hR hB
          refine ⟨_, rfl, ?_, fun hc => absurd hc (by decide), fun _ => ?_⟩
          · exact Nat.le_add_right _ _
          · exact Nat.lt_add_of_pos_right (List.length_pos.mpr hne)

/-- Witness for C7: re-running the summarized nine-message scenario with its
returned state takes the no-compaction path, passing the state through. -/
theorem C7_total_monotonic_witness :
    summarize_messages msgs9 (some si6) constModel 6 0 lenCounter
      DEFAULT_INITIAL_SUMMARY_PROMPT DEFAULT_EXISTING_SUMMARY_PROMPT
      DEFAULT_FINAL_SUMMARY_PROMPT =
      (.ok ⟨[mkSystemMessage "Summary of conversation earlier: S",
        ⟨some "7", Role.human, "m", []⟩, ⟨some "8", Role.ai, "r", []⟩,
        ⟨some "9", Role.human, "m", []⟩], some si6⟩, 0) ∧
    (∃ si, (SummarizationResult.mk [mkSystemMessage "Summary of conversation earlier: S",
        ⟨some "7", Role.human, "m", []⟩, ⟨some "8", Role.ai, "r", []⟩,
        ⟨some "9", Role.human, "m", []⟩] (some si6)).summary_info = some si ∧
      si6.total_summarized_messages ≤ si.total_summarized_messages ∧
      (0 = 0 → si = si6) ∧
      (0 = 1 → si6.total_summarized_messages < si.total_summarized_messages)) :=
  ⟨by decide,
    C7_total_monotonic msgs9 si6 constModel 6 0 lenCounter
      DEFAULT_INITIAL_SUMMARY_PROMPT DEFAULT_EXISTING_SUMMARY_PROMPT
      DEFAULT_FINAL_SUMMARY_PROMPT _ 0 (by decide)⟩

theorem trimEnd_length_le (l : List Message) : (trimEnd l).length ≤ l.length := by
  simpa [trimEnd] using (List.dropWhile_sublist shouldPop (l := l.reverse)).length_le

theorem trimEnd_take_of_take {x : List Message} {t : Nat} :
    x.take (trimEnd (x.take t)).length = trimEnd (x.take t) := by
  have h1 : (trimEnd (x.take t)).length ≤ t :=
    le_trans (trimEnd_length_le _) (List.length_take_le _ _)
  have h2 := trimEnd_take (x.take t)
  rw [List.take_take, min_eq_left h1] at h2
  exact h2

/-- C3: whenever a call generates a summary (one model invocation), the
trimmed slice is non-empty and does not end on a human message or an
assistant message with pending tool calls; the trim only removes elements
from the end of the candidate slice, and every removed element was itself
a human message or an assistant message with pending tool calls. -/
theorem C3_safety_trim (messages : List Message)
    (existing_summary_info : Option SummaryInfo) (model : List Message → String)
    (max_tokens max_summary_tokens : Int) (token_counter : TokenCounter)
    (ip : List Message → List Message) (ep : List Message → String → List Message)
    (fp : List Message → String → List Message → List Message)
    (h : (summarize_messages messages existing_summary_info model max_tokens
      max_summary_tokens token_counter ip ep fp).2 = 1) :
    plannedSlice messages existing_summary_info max_tokens max_summary_tokens
      token_counter ≠ [] ∧
    (∀ m, (plannedSlice messages existing_summary_info max_tokens
      max_summary_tokens token_counter).getLast? = some m → shouldPop m = false) ∧
    (plannedCandidate messages existing_summary_info max_tokens max_summary_tokens
      token_counter).take (plannedSlice messages existing_summary_info max_tokens
        max_summary_tokens token_counter).length =
      plannedSlice messages existing_summary_info max_tokens max_summary_tokens
        token_counter ∧
    (∀ m ∈ (plannedCandidate messages existing_summary_info max_tokens
      max_summary_tokens token_counter).drop (plannedSlice messages
        existing_summary_info max_tokens max_summary_tokens token_counter).length,
      shouldPop m = true) := by
  refine ⟨?_, fun m hm => trimEnd_getLast hm, trimEnd_take _,
    fun m hm => shouldPop_of_mem_drop hm⟩
  simp only [summarize_messages] at h
  split at h
  · simp at h
  · split at h
    · simp at h
    · split at h
      · simp at h
      · split at h
        · split at h
          · simp at h
          · simp at h
        · rename_i heq hne
          simp only [plannedSlice, plannedCandidate, heq]
          exact hne

/-- Witness for C3: the nine-message scenario that summarizes the first six
messages, whose slice ends on a tool-call-free assistant message. -/
theorem C3_safety_trim_witness :
    (summarize_messages msgs9 none constModel 6 0 lenCounter
      DEFAULT_INITIAL_SUMMARY_PROMPT DEFAULT_EXISTING_SUMMARY_PROMPT
      DEFAULT_FINAL_SUMMARY_PROMPT).2 = 1 ∧
    (plannedSlice msgs9 none 6 0 lenCounter ≠ [] ∧
    (∀ m, (plannedSlice msgs9 none 6 0 lenCounter).getLast? = some m →
      shouldPop m = false) ∧
    (plannedCandidate msgs9 none 6 0 lenCounter).take
      (plannedSlice msgs9 none 6 0 lenCounter).length =
      plannedSlice msgs9 none 6 0 lenCounter ∧
    (∀ m ∈ (plannedCandidate msgs9 none 6 0 lenCounter).drop
      (plannedSlice msgs9 none 6 0 lenCounter).length, shouldPop m = true)) :=
  ⟨by decide,
    C3_safety_trim msgs9 none constModel 6 0 lenCounter
      DEFAULT_INITIAL_SUMMARY_PROMPT DEFAULT_EXISTING_SUMMARY_PROMPT
      DEFAULT_FINAL_SUMMARY_PROMPT (by decide)⟩

/-- C5: whenever a call generates a summary (one model invocation and a
successful result), the new state's `total_summarized_messages` equals the
prior total plus the trimmed slice length, its `summarized_message_ids` are
exactly the slice's ids in order (never a cumulative all-time set), and the
slice is an initial segment of the working list starting exactly at index
`totalSummarized` of the prior state. -/
theorem C5_new_state_from_slice (messages : List Message)
    (existing_summary_info : Option SummaryInfo) (model : List Message → String)
    (max_tokens max_summary_tokens : Int) (token_counter : TokenCounter)
    (ip : List Message → List Message) (ep : List Message → String → List Message)
    (fp : List Message → String → List Message → List Message)
    (r : SummarizationResult)
    (h : summarize_messages messages existing_summary_info model max_tokens
      max_summary_tokens token_counter ip ep fp = (.ok r, 1)) :
    ∃ si, r.summary_info = some si ∧
      si.total_summarized_messages = totalSummarized existing_summary_info +
        (plannedSlice messages existing_summary_info max_tokens max_summary_tokens
          token_counter).length ∧
      si.summarized_message_ids = (plannedSlice messages existing_summary_info
        max_tokens max_summary_tokens token_counter).map (fun m => m.id) ∧
      ((carveOut token_counter max_tokens messages).2.1.drop
        (totalSummarized existing_summary_info)).take
        (plannedSlice messages existing_summary_info max_tokens max_summary_tokens
          token_counter).length =
        plannedSlice messages existing_summary_info max_tokens max_summary_tokens
          token_counter := by
  simp only [summarize_messages] at h
  split at h
  · exact absurd h (by simp)
  · split at h
    · exact absurd h (by simp)
    · split at h
      · exact absurd h (by simp)
      · split at h
        · split at h
          · exact absurd h (by simp)
          · exact absurd h (by simp)
        · rename_i n1 idx1 heq hne
          injection h with hA hB
          injection hA with hR
          subst hR
          have hps : plannedSlice messages existing_summary_info max_tokens
              max_summary_tokens token_counter =
              trimEnd (rawCandidate (carveOut token_counter max_tokens messages).2.2
                (carveOut token_counter max_tokens messages).2.1
                (totalSummarized existing_summary_info) n1 idx1) := by
            simp only [plannedSlice, plannedCandidate, heq]
          refine ⟨_, rfl, by rw [hps], by rw [hps], ?_⟩
          rw [hps]
          simp only [rawCandidate]
          split
          · rfl
          · exact trimEnd_take_of_take

/-- Witness for C5: the nine-message scenario; the slice is the first six
messages, the new total is 0 + 6 and the ids are exactly theirs. -/
theorem C5_new_state_from_slice_witness :
    summarize_messages msgs9 none constModel 6 0 lenCounter
      DEFAULT_INITIAL_SUMMARY_PROMPT DEFAULT_EXISTING_SUMMARY_PROMPT
      DEFAULT_FINAL_SUMMARY_PROMPT =
      (.ok ⟨[mkSystemMessage "Summary of conversation earlier: S",
        ⟨some "7", Role.human, "m", []⟩, ⟨some "8", Role.ai, "r", []⟩,
        ⟨some "9", Role.human, "m", []⟩], some si6⟩, 1) ∧
    (∃ si, (SummarizationResult.mk [mkSystemMessage "Summary of conversation earlier: S",
        ⟨some "7", Role.human, "m", []⟩, ⟨some "8", Role.ai, "r", []⟩,
        ⟨some "9", Role.human, "m", []⟩] (some si6)).summary_info = some si ∧
      si.total_summarized_messages = totalSummarized none +
        (plannedSlice msgs9 none 6 0 lenCounter).length ∧
      si.summarized_message_ids =
        (plannedSlice msgs9 none 6 0 lenCounter).map (fun m => m.id) ∧
      ((carveOut lenCounter 6 msgs9).2.1.drop (totalSummarized none)).take
        (plannedSlice msgs9 none 6 0 lenCounter).length =
        plannedSlice msgs9 none 6 0 lenCounter) :=
  ⟨by decide,
    C5_new_state_from_slice msgs9 none constModel 6 0 lenCounter
      DEFAULT_INITIAL_SUMMARY_PROMPT DEFAULT_EXISTING_SUMMARY_PROMPT
      DEFAULT_FINAL_SUMMARY_PROMPT _ (by decide)⟩

/-- A system message of token cost 1 under `lenCounter`. -/
def sysLight : Message := ⟨none, Role.system, "p", []⟩

/-- C8: if the input starts with a system message (under the default
templates) and the call succeeds, the output's first element is that system
message unchanged; the slice is an initial segment of the remaining messages
starting at the resume index (so the system message is never part of it); and
the carve-out hands the scan the budget `maxTokens - cost(system)`, without
storing that reduction anywhere in the returned state. -/
theorem C8_system_message_preserved (m : Message) (rest : List Message)
    (existing_summary_info : Option SummaryInfo) (model : List Message → String)
    (max_tokens max_summary_tokens : Int) (token_counter : TokenCounter)
    (r : SummarizationResult) (c : Nat)
    (hrole : m.role = Role.system)
    (h : summarize_messages (m :: rest) existing_summary_info model max_tokens
      max_summary_tokens token_counter DEFAULT_INITIAL_SUMMARY_PROMPT
      DEFAULT_EXISTING_SUMMARY_PROMPT DEFAULT_FINAL_SUMMARY_PROMPT = (.ok r, c)) :
    r.messages.head? = some m ∧
    carveOut token_counter max_tokens (m :: rest) =
      (some m, rest, max_tokens - token_counter [m]) ∧
    (rest.drop (totalSummarized existing_summary_info)).take
      (plannedSlice (m :: rest) existing_summary_info max_tokens max_summary_tokens
        token_counter).length =
      plannedSlice (m :: rest) existing_summary_info max_tokens max_summary_tokens
        token_counter := by
  have hc : carveOut token_counter max_tokens (m :: rest) =
      (some m, rest, max_tokens - token_counter [m]) := by
    simp [carveOut, hrole]
  refine ⟨?_, hc, ?_⟩
  · simp only [summarize_messages, hc] at h
    split at h
    · exact absurd h (by simp)
    · split at h
      · injection h with hA hB
        injection hA with hR
        subst hR
        simp [withSystem]
      · split at h
        · exact absurd h (by simp)
        · split at h
          · split at h
            · injection h with hA hB
              injection hA with hR
              subst hR
              simp [DEFAULT_FINAL_SUMMARY_PROMPT, withSystem]
            · injection h with hA hB
              injection hA with hR
              subst hR
              simp [withSystem]
          · injection h with hA hB
            injection hA with hR
            subst hR
            simp [DEFAULT_FINAL_SUMMARY_PROMPT, withSystem]
  · simp only [plannedSlice, plannedCandidate, hc]
    split
    · rfl
    · simp only [rawCandidate]
      split
      · rfl
      · exact trimEnd_take_of_take

/-- Witness for C8: a cost-1 system message ahead of the nine-message
scenario with budget 7; the system message stays first and the slice is drawn
from the other messages only. -/
theorem C8_system_message_preserved_witness :
    sysLight.role = Role.system ∧
    summarize_messages (sysLight :: msgs9) none constModel 7 0 lenCounter
      DEFAULT_INITIAL_SUMMARY_PROMPT DEFAULT_EXISTING_SUMMARY_PROMPT
      DEFAULT_FINAL_SUMMARY_PROMPT =
      (.ok ⟨[sysLight, mkSystemMessage "Summary of conversation earlier: S",
        ⟨some "7", Role.human, "m", []⟩, ⟨some "8", Role.ai, "r", []⟩,
        ⟨some "9", Role.human, "m", []⟩], some si6⟩, 1) ∧
    ((SummarizationResult.mk [sysLight,
        mkSystemMessage "Summary of conversation earlier: S",
        ⟨some "7", Role.human, "m", []⟩, ⟨some "8", Role.ai, "r", []⟩,
        ⟨some "9", Role.human, "m", []⟩] (some si6)).messages.head? = some sysLight ∧
      carveOut lenCounter 7 (sysLight :: msgs9) =
        (some sysLight, msgs9, 7 - lenCounter [sysLight]) ∧
      (msgs9.drop (totalSummarized none)).take
        (plannedSlice (sysLight :: msgs9) none 7 0 lenCounter).length =
        plannedSlice (sysLight :: msgs9) none 7 0 lenCounter) :=
  ⟨by decide, by decide,
    C8_system_message_preserved sysLight msgs9 none constModel 7 0 lenCounter _ 1
      (by decide) (by decide)⟩

/-- Assistant message of cost 6 under `lenCounter`. -/
def cxA : Message := ⟨some "1", Role.ai, "aaaaaa", []⟩

/-- Human message of cost 1 under `lenCounter`. -/
def cxB : Message := ⟨some "2", Role.human, "b", []⟩

/-- Assistant message of cost 5 under `lenCounter`. -/
def cxC : Message := ⟨some "3", Role.ai, "ccccc", []⟩

/-- Assistant message of cost 5 under `lenCounter`. -/
def cxD : Message := ⟨some "4", Role.ai, "ddddd", []⟩

/-- Counterexample conversation for the idempotence claim: costs 6,1,5,5. -/
def cxMsgs : List Message := [cxA, cxB, cxC, cxD]

/-- The state returned by the first call on `cxMsgs`: only `cxA` was
summarized (the safety trim popped the trailing human message). -/
def cxSi : SummaryInfo := ⟨"S", [some "1"], 1⟩

/-- C1 counterexample: with budget 10, summary budget 1 (a valid
configuration) and costs 6,1,5,5, the first call summarizes only `[cxA]`
because the trim pops the trailing human message, leaving an 11-token tail.
Re-running with the same four messages and the returned state invokes the
model again (1 invocation, not 0), refuting the claimed idempotence. -/
theorem C1_counterexample :
    ¬ ((1 : Int) ≥ 10) ∧
    summarize_messages cxMsgs none constModel 10 1 lenCounter
      DEFAULT_INITIAL_SUMMARY_PROMPT DEFAULT_EXISTING_SUMMARY_PROMPT
      DEFAULT_FINAL_SUMMARY_PROMPT =
      (.ok ⟨[mkSystemMessage "Summary of conversation earlier: S", cxB, cxC, cxD],
        some cxSi⟩, 1) ∧
    (summarize_messages cxMsgs (some cxSi) constModel 10 1 lenCounter
      DEFAULT_INITIAL_SUMMARY_PROMPT DEFAULT_EXISTING_SUMMARY_PROMPT
      DEFAULT_FINAL_SUMMARY_PROMPT).2 = 1 := by
  exact ⟨by decide, by decide, by decide⟩

theorem rawCandidate_eq_nil {mt : Int} {w : List Message} {t : Nat} {n : Int}
    {i : Nat} (h : n ≤ mt) : rawCandidate mt w t n i = [] := by
  simp [rawCandidate, h]

theorem trimEnd_nil : trimEnd [] = [] := rfl

/-- C1 (amended): a second call on the same messages with the state returned
by a first successful call yields the identical output and state and performs
zero model invocations, provided the unsummarized tail after the first call
fits the effective budget: the second call's token scan succeeds with a total
at most the carved-out `maxTokens`. (Without that proviso the second call can
legitimately compact further, as the counterexample shows.) -/
theorem C1_idempotent_when_tail_fits (messages : List Message)
    (S S1 : Option SummaryInfo) (model : List Message → String)
    (max_tokens max_summary_tokens : Int) (token_counter : TokenCounter)
    (ip : List Message → List Message) (ep : List Message → String → List Message)
    (fp : List Message → String → List Message → List Message)
    (out1 : List Message) (c : Nat) (n : Int) (idx : Nat)
    (h : summarize_messages messages S model max_tokens max_summary_tokens
      token_counter ip ep fp = (.ok ⟨out1, S1⟩, c))
    (h2 : scanResult token_counter (carveOut token_counter max_tokens messages).2.2
      max_summary_tokens (carveOut token_counter max_tokens messages).2.1
      (totalSummarized S1) = .ok (n, idx))
    (h3 : n ≤ (carveOut token_counter max_tokens messages).2.2) :
    summarize_messages messages S1 model max_tokens max_summary_tokens
      token_counter ip ep fp = (.ok ⟨out1, S1⟩, 0) := by
  simp only [summarize_messages] at h ⊢
  by_cases hcfg : max_summary_tokens ≥ max_tokens
  · rw [if_pos hcfg] at h
    exact absurd h (by simp)
  · rw [if_neg hcfg] at h ⊢
    by_cases hemp : (carveOut token_counter max_tokens messages).2.1 = []
    · rw [if_pos hemp] at h ⊢
      injection h with hA hB
      injection hA with hR
      injection hR with h5 h6
      subst h5 h6
      rfl
    · rw [if_neg hemp] at h ⊢
      split at h
      · exact absurd h (by simp)
      · rename_i n0 idx0 heq0
        split at h
        · -- no new summary: the state is passed through unchanged
          rename_i hsl
          split at h
          · injection h with hA hB
            injection hA with hR
            injection hR with h5 h6
            subst h5 h6
            simp [heq0, hsl]
          · injection h with hA hB
            injection hA with hR
            injection hR with h5 h6
            subst h5 h6
            simp [heq0, hsl]
        · -- new summary was generated on the first call
          rename_i hsl
          injection h with hA hB
          injection hA with hR
          injection hR with h5 h6
          subst h5 h6
          simp only [totalSummarized] at h2 ⊢
          simp [h2, rawCandidate_eq_nil h3, trimEnd_nil]

/-- Witness for the amended C1: the nine-message scenario; after the first
call the three-message tail costs 3 ≤ 6, so the second call is a no-op with
an identical result. -/
theorem C1_idempotent_when_tail_fits_witness :
    summarize_messages msgs9 none constModel 6 0 lenCounter
      DEFAULT_INITIAL_SUMMARY_PROMPT DEFAULT_EXISTING_SUMMARY_PROMPT
      DEFAULT_FINAL_SUMMARY_PROMPT =
      (.ok ⟨[mkSystemMessage "Summary of conversation earlier: S",
        ⟨some "7", Role.human, "m", []⟩, ⟨some "8", Role.ai, "r", []⟩,
        ⟨some "9", Role.human, "m", []⟩], some si6⟩, 1) ∧
    scanResult lenCounter (carveOut lenCounter 6 msgs9).2.2 0
      (carveOut lenCounter 6 msgs9).2.1 (totalSummarized (some si6)) = .ok (3, 8) ∧
    (3 : Int) ≤ (carveOut lenCounter 6 msgs9).2.2 ∧
    summarize_messages msgs9 (some si6) constModel 6 0 lenCounter
      DEFAULT_INITIAL_SUMMARY_PROMPT DEFAULT_EXISTING_SUMMARY_PROMPT
      DEFAULT_FINAL_SUMMARY_PROMPT =
      (.ok ⟨[mkSystemMessage "Summary of conversation earlier: S",
        ⟨some "7", Role.human, "m", []⟩, ⟨some "8", Role.ai, "r", []⟩,
        ⟨some "9", Role.human, "m", []⟩], some si6⟩, 0) :=
  ⟨by decide, by decide, by decide,
    C1_idempotent_when_tail_fits msgs9 none (some si6) constModel 6 0 lenCounter
      DEFAULT_INITIAL_SUMMARY_PROMPT DEFAULT_EXISTING_SUMMARY_PROMPT
      DEFAULT_FINAL_SUMMARY_PROMPT
      [mkSystemMessage "Summary of conversation earlier: S",
        ⟨some "7", Role.human, "m", []⟩, ⟨some "8", Role.ai, "r", []⟩,
        ⟨some "9", Role.human, "m", []⟩] 1 3 8
      (by decide) (by decide) (by decide)⟩

/-- Spec-side comparator for the C4 resume-point claim ("the token scan that
accumulates tokenCounter over single messages starts at index
`max(0, priorState.total_summarized_count - 1)`"): the same scan loop, but
with the token accumulation itself starting one message before the boundary. -/
def scanResultStartBefore (token_counter : TokenCounter)
    (max_tokens max_summary_tokens : Int) (working : List Message) (total : Nat) :
    Except SummarizeError (Int × Nat) :=
  scanTokens token_counter max_tokens (max_tokens * 2 - max_summary_tokens)
    (working.drop (total - 1)) (total - 1) 0 (total - 1)

/-- Spec-side comparator: `summarize_messages` as the C4 claim describes it,
differing from the implementation only in using `scanResultStartBefore`. -/
def summarize_messages_startBefore (messages : List Message)
    (existing_summary_info : Option SummaryInfo)
    (model : List Message → String) (max_tokens max_summary_tokens : Int)
    (token_counter : TokenCounter)
    (initial_summary_prompt : List Message → List Message)
    (existing_summary_prompt : List Message → String → List Message)
    (final_prompt : List Message → String → List Message → List Message) :
    Except SummarizeError SummarizationResult × Nat :=
  if max_summary_tokens ≥ max_tokens then (.error .invalidConfiguration, 0)
  else
    let c := carveOut token_counter max_tokens messages
    let existing_system_message := c.1
    let working := c.2.1
    let max_tokens2 := c.2.2
    if working = [] then
      (.ok ⟨withSystem existing_system_message working, existing_summary_info⟩, 0)
    else
      let total := totalSummarized existing_summary_info
      match scanResultStartBefore token_counter max_tokens2 max_summary_tokens working total with
      | .error e => (.error e, 0)
      | .ok (n_tokens, idx) =>
        let messages_to_summarize := trimEnd (rawCandidate max_tokens2 working total n_tokens idx)
        if messages_to_summarize = [] then
          match existing_summary_info with
          | some si =>
            (.ok ⟨final_prompt (withSystem existing_system_message []) si.summary
                (working.drop total), some si⟩, 0)
          | none => (.ok ⟨withSystem existing_system_message working, none⟩, 0)
        else
          let summary_messages :=
            match existing_summary_info with
            | some si => existing_summary_prompt messages_to_summarize si.summary
            | none => initial_summary_prompt messages_to_summarize
          let response := model summary_messages
          let total2 := total + messages_to_summarize.length
          let si2 : SummaryInfo :=
            ⟨response, messages_to_summarize.map (fun m => m.id), total2⟩
          (.ok ⟨final_prompt (withSystem existing_system_message []) si2.summary
              (working.drop total2), some si2⟩, 1)

/-- Human message of cost 1, id "1". -/
def c4First : Message := ⟨some "1", Role.human, "x", []⟩

/-- Human message of cost 30, id "2". -/
def c4Long : Message := ⟨some "2", Role.human, "xxxxxxxxxxxxxxxxxxxxxxxxxxxxxx", []⟩

/-- Human message of cost 1, id "3". -/
def c4Last : Message := ⟨some "3", Role.human, "y", []⟩

/-- Counterexample conversation for the resume-point claim. -/
def c4Msgs : List Message := [c4First, c4Long, c4Last]

/-- Prior state recording that the first two messages were summarized. -/
def c4Si : SummaryInfo := ⟨"old", [some "1", some "2"], 2⟩

/-- C4 counterexample: with prior total 2, budget 10 (ceiling 19) and a
30-token message at index 1, the implemented call accumulates only from index
2 (1 token) and succeeds without summarizing, while a scan whose accumulation
starts at `max(0, 2-1) = 1` — as the claim states — reaches 30 ≥ 19 and fails
with `budgetExceeded`. -/
theorem C4_counterexample :
    summarize_messages c4Msgs (some c4Si) constModel 10 1 lenCounter
      DEFAULT_INITIAL_SUMMARY_PROMPT DEFAULT_EXISTING_SUMMARY_PROMPT
      DEFAULT_FINAL_SUMMARY_PROMPT =
      (.ok ⟨[mkSystemMessage "Summary of conversation earlier: old", c4Last],
        some c4Si⟩, 0) ∧
    summarize_messages_startBefore c4Msgs (some c4Si) constModel 10 1 lenCounter
      DEFAULT_INITIAL_SUMMARY_PROMPT DEFAULT_EXISTING_SUMMARY_PROMPT
      DEFAULT_FINAL_SUMMARY_PROMPT = (.error .budgetExceeded, 0) ∧
    scanResult lenCounter 10 1 c4Msgs 2 = .ok (1, 2) ∧
    scanResultStartBefore lenCounter 10 1 c4Msgs 2 = .error .budgetExceeded := by
  exact ⟨by decide, by decide, by decide, by decide⟩

/-- C4 (amended): the token scan accumulates per-message costs starting at
index `total_summarized_count` itself (0 without prior state): a successful
scan's total equals the cost sum over `working.drop total`, so messages
before the boundary contribute nothing. The value `max(0, total - 1)` only
initializes the tentative cutoff index. -/
theorem C4_scan_accumulates_from_count (token_counter : TokenCounter)
    (max_tokens max_summary_tokens : Int) (working : List Message) (total : Nat)
    (n : Int) (idx : Nat)
    (h : scanResult token_counter max_tokens max_summary_tokens working total =
      .ok (n, idx)) :
    n = ((working.drop total).map (fun m => token_counter [m])).sum := by
  have h2 := scanTokens_ok_sum token_counter max_tokens
    (max_tokens * 2 - max_summary_tokens) (working.drop total) total 0 (total - 1)
    n idx h
  simpa using h2

/-- Witness for the amended C4: the nine-message scenario's second call. -/
theorem C4_scan_accumulates_from_count_witness :
    scanResult lenCounter 6 0 msgs9 6 = .ok (3, 8) ∧
    (3 : Int) = ((msgs9.drop 6).map (fun m => lenCounter [m])).sum :=
  ⟨by decide,
    C4_scan_accumulates_from_count lenCounter 6 0 msgs9 6 3 8 (by decide)⟩

end Langmem
